import Mathlib

/-!
Shallow embedding of the cupoch `Visualizer` core
(src/cupoch/visualization/visualizer/visualizer.h).

The repository ships only the header, which fixes the data model:
an unordered set of geometry pointers (`geometry_ptrs_`, line 166),
an unordered set of geometry renderers (`geometry_renderer_ptrs_`,
line 170), ordered vectors of utility geometries and renderers
(lines 174, 177), separate coordinate-frame members (lines 184-186),
the dirty flag initialized to `true` (line 155), and the double
animation-callback slot (lines 145-151).  The bodies of the member
functions are not in the repository snapshot, so each operation below
is modelled from the specification's contracts (spec sections 4.1 and
4.3), as its doc comment records.
-/

namespace CupochVis

/-- Modelled from the spec: the kinds of displayable geometry.  The
renderer factory recognizes point clouds, triangle meshes and images;
`unspecified` stands for any kind outside this list. -/
inductive GeometryKind where
  | pointCloud
  | triangleMesh
  | image
  | unspecified
deriving DecidableEq

/-- A geometry object.  Registry membership is by reference identity
(visualizer.h line 93 stores `shared_ptr<const geometry::Geometry>`),
modelled as a numeric identity token plus the geometry's kind. -/
structure Geometry where
  gid : Nat
  kind : GeometryKind
deriving DecidableEq

/-- A GPU renderer, bound one-to-one to the geometry it draws
(visualizer.h lines 170-171). -/
structure Renderer where
  bound : Geometry
deriving DecidableEq

/-- Modelled from the spec: the renderer factory succeeds exactly on
the geometry kinds it recognizes. -/
def rendererSupported : GeometryKind → Bool
  | GeometryKind.unspecified => false
  | _ => true

/-- The renderer the factory constructs for a geometry. -/
def rendererFor (g : Geometry) : Renderer := ⟨g⟩

/-- One primitive action an animation callback may perform on the
visualizer while it executes. -/
inductive CbOp where
  | registerCb : Option Nat → CbOp
  | addGeom : Geometry → Bool → CbOp
  | removeGeom : Geometry → Bool → CbOp
  | clearGeoms : CbOp
  | updateGeom : Option Geometry → CbOp
  | updateRenderOp : CbOp
  | closeOp : CbOp

/-- An animation callback: the actions it performs on the visualizer
followed by its boolean result ("did you change geometry"). -/
structure Callback where
  ops : List CbOp
  ret : Bool

/-- Events delivered by the windowing backend during one poll. -/
inductive OsEvent where
  | closeEvent
  | resizeEvent (w h : Nat)
  | refreshEvent
  | inputEvent
deriving DecidableEq

/-- The observable state of one `Visualizer` instance.  Field names
follow the header members.  `Finset` models the two `unordered_set`
members, `List` models the two utility `vector` members.  The log
fields (`resync_log`, draw logs, `render_count`, `invoked_log`) record
the calls the core makes on its collaborators, so that renderer
resynchronization, drawing and callback invocation are observable. -/
@[ext]
structure VisState where
  geometry_ptrs : Finset Geometry
  geometry_renderer_ptrs : Finset Renderer
  utility_ptrs : List Geometry
  utility_renderer_ptrs : List Renderer
  coordinate_frame_mesh : Option Geometry
  coordinate_frame_renderer : Option Renderer
  is_redraw_required : Bool
  close_requested : Bool
  animation_callback_func : Option Nat
  animation_callback_func_in_loop : Option Nat
  view_bbox : Finset Geometry
  resync_log : List (Finset Renderer)
  primary_draw_log : List (Finset Renderer)
  utility_draw_log : List (List Renderer)
  render_count : Nat
  invoked_log : List Nat
deriving DecidableEq

/-- The state of a freshly created visualizer: empty registries, no
callback registered (header lines 145 and 150-151 initialize both
slots to `nullptr`), the dirty flag true (header line 155 initializes
`is_redraw_required_ = true`). -/
def initVisState : VisState where
  geometry_ptrs := ∅
  geometry_renderer_ptrs := ∅
  utility_ptrs := []
  utility_renderer_ptrs := []
  coordinate_frame_mesh := none
  coordinate_frame_renderer := none
  is_redraw_required := true
  close_requested := false
  animation_callback_func := none
  animation_callback_func_in_loop := none
  view_bbox := ∅
  resync_log := []
  primary_draw_log := []
  utility_draw_log := []
  render_count := 0
  invoked_log := []

/-- Modelled from the spec: the view control recomputes its bounding
box to encompass all current geometry. -/
def resetBoundingBox (s : VisState) : VisState :=
  { s with view_bbox := s.geometry_ptrs }

/-- Modelled from the spec (section 4.1): `AddGeometry` fails without
mutating state when the geometry kind is unsupported; otherwise it
inserts the geometry into the registry set, constructs exactly one
renderer bound to it and inserts it into the renderer set, optionally
resets the bounding box, and marks the dirty flag. -/
def addGeometry (g : Geometry) (reset_bounding_box : Bool) (s : VisState) :
    VisState × Bool :=
  if rendererSupported g.kind then
    let s1 := { s with
      geometry_ptrs := insert g s.geometry_ptrs,
      geometry_renderer_ptrs := insert (rendererFor g) s.geometry_renderer_ptrs }
    let s2 := if reset_bounding_box then resetBoundingBox s1 else s1
    ({ s2 with is_redraw_required := true }, true)
  else
    (s, false)

/-- Modelled from the spec (section 4.1): `RemoveGeometry` fails when
the geometry is not registered; otherwise it removes the geometry and
its bound renderer, optionally resets the bounding box, and marks the
dirty flag. -/
def removeGeometry (g : Geometry) (reset_bounding_box : Bool) (s : VisState) :
    VisState × Bool :=
  if g ∈ s.geometry_ptrs then
    let s1 := { s with
      geometry_ptrs := s.geometry_ptrs.erase g,
      geometry_renderer_ptrs := s.geometry_renderer_ptrs.erase (rendererFor g) }
    let s2 := if reset_bounding_box then resetBoundingBox s1 else s1
    ({ s2 with is_redraw_required := true }, true)
  else
    (s, false)

/-- Modelled from the spec (section 4.1): `ClearGeometries` removes
all geometries and their renderers unconditionally, always succeeds,
and marks the dirty flag.  The utility and coordinate-frame members
are separate fields and are not touched. -/
def clearGeometries (s : VisState) : VisState × Bool :=
  ({ s with geometry_ptrs := ∅, geometry_renderer_ptrs := ∅,
            is_redraw_required := true }, true)

/-- Modelled from the spec (section 4.1): `UpdateGeometry` with a
specific geometry tells only that geometry's bound renderer to
resynchronize and fails when the geometry is not registered; with no
argument it tells every registered renderer to resynchronize.  Marks
the dirty flag on success.  Each resynchronization request is recorded
in `resync_log`. -/
def updateGeometry (g : Option Geometry) (s : VisState) : VisState × Bool :=
  match g with
  | some g0 =>
      if g0 ∈ s.geometry_ptrs then
        ({ s with resync_log := s.resync_log ++ [{rendererFor g0}],
                  is_redraw_required := true }, true)
      else
        (s, false)
  | none =>
      ({ s with resync_log := s.resync_log ++ [s.geometry_renderer_ptrs],
                is_redraw_required := true }, true)

/-- `HasGeometry`: true iff the registry is non-empty. -/
def hasGeometry (s : VisState) : Bool :=
  s.geometry_ptrs.card != 0

/-- `UpdateRender` unconditionally sets the dirty flag (spec section
4.3). -/
def updateRender (s : VisState) : VisState :=
  { s with is_redraw_required := true }

/-- `Close` requests termination of the loop (spec section 5:
cancellation is cooperative, only a request). -/
def requestClose (s : VisState) : VisState :=
  { s with close_requested := true }

/-- `RegisterAnimationCallback` replaces the stored callback slot
(header line 145); the in-loop snapshot slot is not touched. -/
def registerAnimationCallback (c : Option Nat) (s : VisState) : VisState :=
  { s with animation_callback_func := c }

/-- `ResetViewPoint`: delegates to the view control, optionally
recomputing the bounding box first; marks dirty (spec section 4.3). -/
def resetViewPoint (reset_bounding_box : Bool) (s : VisState) : VisState :=
  let s1 := if reset_bounding_box then resetBoundingBox s else s
  { s1 with is_redraw_required := true }

/-- Modelled from the spec: registering a utility overlay appends the
geometry and its renderer to the ordered utility sequences (header
lines 174 and 177 are `std::vector`s). -/
def addUtility (g : Geometry) (s : VisState) : VisState :=
  { s with utility_ptrs := s.utility_ptrs ++ [g],
           utility_renderer_ptrs := s.utility_renderer_ptrs ++ [rendererFor g] }

/-- The coordinate-frame axes mesh (header line 184). -/
def coordinateFrameMesh : Geometry := ⟨0, GeometryKind.triangleMesh⟩

/-- Modelled from the spec (section 4.4): `BuildUtilities` constructs
the coordinate-frame mesh and its renderer once, keeping them outside
the regular geometry registry, registered as a utility overlay. -/
def buildUtilities (s : VisState) : VisState :=
  let s1 := addUtility coordinateFrameMesh s
  { s1 with coordinate_frame_mesh := some coordinateFrameMesh,
            coordinate_frame_renderer := some (rendererFor coordinateFrameMesh) }

/-- Execute one callback action on the visualizer. -/
def runCbOp (op : CbOp) (s : VisState) : VisState :=
  match op with
  | CbOp.registerCb c => registerAnimationCallback c s
  | CbOp.addGeom g rb => (addGeometry g rb s).1
  | CbOp.removeGeom g rb => (removeGeometry g rb s).1
  | CbOp.clearGeoms => (clearGeometries s).1
  | CbOp.updateGeom g => (updateGeometry g s).1
  | CbOp.updateRenderOp => updateRender s
  | CbOp.closeOp => requestClose s

/-- Execute a callback's actions in order. -/
def runCbOps (ops : List CbOp) (s : VisState) : VisState :=
  match ops with
  | [] => s
  | op :: rest => runCbOps rest (runCbOp op s)

/-- Modelled from the spec (section 4.3): at the top of a loop
iteration the registered callback is copied into the in-loop snapshot
slot (header lines 146-151); the snapshot is then invoked and its
boolean result is ORed into the dirty flag.  `table` interprets
callback identifiers. -/
def callbackStep (table : Nat → Callback) (s : VisState) : VisState :=
  match s.animation_callback_func with
  | none => { s with animation_callback_func_in_loop := none }
  | some cid =>
      let s1 := { s with animation_callback_func_in_loop := some cid,
                         invoked_log := s.invoked_log ++ [cid] }
      let s2 := runCbOps (table cid).ops s1
      if (table cid).ret then { s2 with is_redraw_required := true } else s2

/-- Modelled from the spec (section 6): the backend forwards a close
event into the close-request handler and resize/refresh events into
`UpdateRender`; other input events go to the view control. -/
def processEvent (e : OsEvent) (s : VisState) : VisState :=
  match e with
  | OsEvent.closeEvent => requestClose s
  | OsEvent.resizeEvent _ _ => updateRender s
  | OsEvent.refreshEvent => updateRender s
  | OsEvent.inputEvent => s

/-- Process a batch of OS events in order. -/
def processEvents (events : List OsEvent) (s : VisState) : VisState :=
  match events with
  | [] => s
  | e :: rest => processEvents rest (processEvent e s)

/-- Modelled from the spec (section 4.3): a render pass resynchronizes
all renderers with their geometries, draws the primary renderers (an
unordered collection) and the utility renderers (in sequence order),
clears the dirty flag and swaps the buffer. -/
def renderPass (s : VisState) : VisState :=
  { s with resync_log := s.resync_log ++ [s.geometry_renderer_ptrs],
           primary_draw_log := s.primary_draw_log ++ [s.geometry_renderer_ptrs],
           utility_draw_log := s.utility_draw_log ++ [s.utility_renderer_ptrs],
           render_count := s.render_count + 1,
           is_redraw_required := false }

/-- Modelled from the spec (section 4.3): one iteration of the frame
loop — process the delivered OS events, snapshot and invoke the
animation callback, then render if the dirty flag is set.  Returns the
new state and the continue flag: false once a close has been requested
or processed, true otherwise. -/
def frameIteration (table : Nat → Callback) (events : List OsEvent)
    (s : VisState) : VisState × Bool :=
  let s1 := processEvents events s
  let s2 := callbackStep table s1
  let s3 := if s2.is_redraw_required then renderPass s2 else s2
  (s3, !s3.close_requested)

/-- `PollEvents` performs one non-blocking iteration: it runs whether
or not any events were delivered. -/
def pollEvents (table : Nat → Callback) (events : List OsEvent)
    (s : VisState) : VisState × Bool :=
  frameIteration table events s

/-- `WaitEvents` performs one iteration after blocking until at least
one OS event arrives; blocking forever (no event ever delivered) is
modelled as `none`. -/
def waitEvents (table : Nat → Callback) (events : List OsEvent)
    (s : VisState) : Option (VisState × Bool) :=
  match events with
  | [] => none
  | _ => some (frameIteration table events s)

/-- One registry mutation call of the kind quantified over by the
cardinality invariant. -/
inductive MutCall where
  | add (g : Geometry) (reset_bounding_box : Bool)
  | remove (g : Geometry) (reset_bounding_box : Bool)
  | clear

/-- Apply one mutation call, keeping only the resulting state. -/
def applyMutCall (c : MutCall) (s : VisState) : VisState :=
  match c with
  | MutCall.add g rb => (addGeometry g rb s).1
  | MutCall.remove g rb => (removeGeometry g rb s).1
  | MutCall.clear => (clearGeometries s).1

/-- Apply a sequence of mutation calls in order. -/
def applyMutCalls (cs : List MutCall) (s : VisState) : VisState :=
  match cs with
  | [] => s
  | c :: rest => applyMutCalls rest (applyMutCall c s)

/-- The binding between the two registry sets: each live renderer is
the factory's renderer for a live geometry, and vice versa. -/
def RegistryConsistent (s : VisState) : Prop :=
  s.geometry_renderer_ptrs = s.geometry_ptrs.image rendererFor

/-! Helper lemmas. -/

lemma rendererFor_injective : Function.Injective rendererFor :=
  fun _ _ h => congrArg Renderer.bound h

lemma resetBoundingBox_geometry_ptrs (s : VisState) :
    (resetBoundingBox s).geometry_ptrs = s.geometry_ptrs := rfl

lemma resetBoundingBox_renderers (s : VisState) :
    (resetBoundingBox s).geometry_renderer_ptrs = s.geometry_renderer_ptrs := rfl

lemma registryConsistent_init : RegistryConsistent initVisState := by
  simp [RegistryConsistent, initVisState]

lemma registryConsistent_addGeometry (g : Geometry) (rb : Bool) (s : VisState)
    (h : RegistryConsistent s) : RegistryConsistent (addGeometry g rb s).1 := by
  unfold addGeometry
  by_cases hs : rendererSupported g.kind
  · simp only [hs, if_true]
    cases rb <;>
      simp_all [RegistryConsistent, resetBoundingBox, Finset.image_insert]
  · simpa [hs] using h

lemma registryConsistent_removeGeometry (g : Geometry) (rb : Bool) (s : VisState)
    (h : RegistryConsistent s) : RegistryConsistent (removeGeometry g rb s).1 := by
  unfold removeGeometry
  by_cases hm : g ∈ s.geometry_ptrs
  · simp only [hm, if_true]
    cases rb <;>
      simp_all [RegistryConsistent, resetBoundingBox,
        Finset.image_erase rendererFor_injective]
  · simpa [hm] using h

lemma registryConsistent_clearGeometries (s : VisState) :
    RegistryConsistent (clearGeometries s).1 := by
  simp [RegistryConsistent, clearGeometries]

lemma registryConsistent_applyMutCall (c : MutCall) (s : VisState)
    (h : RegistryConsistent s) : RegistryConsistent (applyMutCall c s) := by
  cases c with
  | add g rb => exact registryConsistent_addGeometry g rb s h
  | remove g rb => exact registryConsistent_removeGeometry g rb s h
  | clear => exact registryConsistent_clearGeometries s

lemma registryConsistent_applyMutCalls (cs : List MutCall) (s : VisState)
    (h : RegistryConsistent s) : RegistryConsistent (applyMutCalls cs s) := by
  induction cs generalizing s with
  | nil => exact h
  | cons c rest ih =>
      exact ih (applyMutCall c s) (registryConsistent_applyMutCall c s h)

lemma registryConsistent_card (s : VisState) (h : RegistryConsistent s) :
    s.geometry_renderer_ptrs.card = s.geometry_ptrs.card := by
  rw [h]
  exact Finset.card_image_of_injective _ rendererFor_injective

/-! Theorems settling the claims. -/

/-- Claim C1: for every sequence of AddGeometry/RemoveGeometry/
ClearGeometries calls starting from a freshly created visualizer, the
cardinality of the geometry-renderer set equals the cardinality of the
registered-geometry set after each call (in particular after each call
that returns true). -/
theorem addRemoveClear_renderer_card_eq_geometry_card (cs : List MutCall) :
    (applyMutCalls cs initVisState).geometry_renderer_ptrs.card
      = (applyMutCalls cs initVisState).geometry_ptrs.card :=
  registryConsistent_card _
    (registryConsistent_applyMutCalls cs initVisState registryConsistent_init)

/-- Claim C2: AddGeometry on a geometry of a type the renderer factory
does not support returns false and leaves the whole visualizer state
(geometry set, renderer set, dirty flag, view control) unchanged. -/
theorem addGeometry_unsupported_noop (g : Geometry) (rb : Bool) (s : VisState)
    (h : rendererSupported g.kind = false) :
    addGeometry g rb s = (s, false) := by
  simp [addGeometry, h]

/-- Witness for C2: adding a geometry of unsupported kind to a fresh
visualizer fails and changes nothing. -/
theorem addGeometry_unsupported_noop_witness :
    rendererSupported (Geometry.mk 7 GeometryKind.unspecified).kind = false ∧
      addGeometry (Geometry.mk 7 GeometryKind.unspecified) true initVisState
        = (initVisState, false) :=
  ⟨by decide,
   addGeometry_unsupported_noop (Geometry.mk 7 GeometryKind.unspecified) true
     initVisState (by decide)⟩

/-- Claim C3: RemoveGeometry on a reference that is not a member of the
registry returns false and leaves the state unchanged. -/
theorem removeGeometry_unregistered_noop (g : Geometry) (rb : Bool)
    (s : VisState) (h : g ∉ s.geometry_ptrs) :
    removeGeometry g rb s = (s, false) := by
  simp [removeGeometry, h]

/-- Witness for C3: removing a never-added geometry from a fresh
visualizer fails and changes nothing. -/
theorem removeGeometry_unregistered_noop_witness :
    Geometry.mk 1 GeometryKind.pointCloud ∉ initVisState.geometry_ptrs ∧
      removeGeometry (Geometry.mk 1 GeometryKind.pointCloud) true initVisState
        = (initVisState, false) :=
  ⟨by decide,
   removeGeometry_unregistered_noop (Geometry.mk 1 GeometryKind.pointCloud)
     true initVisState (by decide)⟩

/-- Claim C4: UpdateGeometry with a specific geometry returns false
exactly when that geometry is not registered; with no argument it
resynchronizes every registered renderer and returns true (also on an
empty registry); and every successful call sets the dirty flag. -/
theorem updateGeometry_contract :
    (∀ g s, (updateGeometry (some g) s).2 = false ↔ g ∉ s.geometry_ptrs) ∧
    (∀ s : VisState, (updateGeometry none s).2 = true ∧
      (updateGeometry none s).1.resync_log
        = s.resync_log ++ [s.geometry_renderer_ptrs]) ∧
    (∀ og s, (updateGeometry og s).2 = true →
      (updateGeometry og s).1.is_redraw_required = true) := by
  refine ⟨?_, ?_, ?_⟩
  · intro g s
    by_cases h : g ∈ s.geometry_ptrs <;> simp [updateGeometry, h]
  · intro s
    simp [updateGeometry]
  · intro og s hsucc
    cases og with
    | none => simp [updateGeometry]
    | some g0 =>
        by_cases h : g0 ∈ s.geometry_ptrs
        · simp [updateGeometry, h]
        · simp [updateGeometry, h] at hsucc

/-- Witness for C4: UpdateGeometry with no argument on the empty fresh
registry succeeds and sets the dirty flag. -/
theorem updateGeometry_contract_witness :
    (updateGeometry none initVisState).2 = true ∧
      (updateGeometry none initVisState).1.is_redraw_required = true :=
  ⟨by decide, updateGeometry_contract.2.2 none initVisState (by decide)⟩

/-! Frame lemmas: which fields each operation leaves untouched. -/

lemma addGeometry_frame (g : Geometry) (rb : Bool) (s : VisState) :
    (addGeometry g rb s).1.invoked_log = s.invoked_log ∧
      (addGeometry g rb s).1.close_requested = s.close_requested := by
  cases h : rendererSupported g.kind <;> cases rb <;>
    simp [addGeometry, resetBoundingBox, h]

lemma removeGeometry_frame (g : Geometry) (rb : Bool) (s : VisState) :
    (removeGeometry g rb s).1.invoked_log = s.invoked_log ∧
      (removeGeometry g rb s).1.close_requested = s.close_requested := by
  by_cases h : g ∈ s.geometry_ptrs <;> cases rb <;>
    simp [removeGeometry, resetBoundingBox, h]

lemma updateGeometry_frame (g : Option Geometry) (s : VisState) :
    (updateGeometry g s).1.invoked_log = s.invoked_log ∧
      (updateGeometry g s).1.close_requested = s.close_requested := by
  cases g with
  | none => simp [updateGeometry]
  | some g0 => by_cases h : g0 ∈ s.geometry_ptrs <;> simp [updateGeometry, h]

lemma runCbOp_invoked_log (op : CbOp) (s : VisState) :
    (runCbOp op s).invoked_log = s.invoked_log := by
  cases op with
  | registerCb c => rfl
  | addGeom g rb => exact (addGeometry_frame g rb s).1
  | removeGeom g rb => exact (removeGeometry_frame g rb s).1
  | clearGeoms => rfl
  | updateGeom g => exact (updateGeometry_frame g s).1
  | updateRenderOp => rfl
  | closeOp => rfl

lemma runCbOps_invoked_log (ops : List CbOp) (s : VisState) :
    (runCbOps ops s).invoked_log = s.invoked_log := by
  induction ops generalizing s with
  | nil => rfl
  | cons op rest ih => rw [runCbOps, ih, runCbOp_invoked_log]

lemma runCbOp_close_mono (op : CbOp) (s : VisState)
    (h : s.close_requested = true) : (runCbOp op s).close_requested = true := by
  cases op with
  | registerCb c => exact h
  | addGeom g rb => rw [runCbOp, (addGeometry_frame g rb s).2]; exact h
  | removeGeom g rb => rw [runCbOp, (removeGeometry_frame g rb s).2]; exact h
  | clearGeoms => exact h
  | updateGeom g => rw [runCbOp, (updateGeometry_frame g s).2]; exact h
  | updateRenderOp => exact h
  | closeOp => rfl

lemma runCbOps_close_mono (ops : List CbOp) (s : VisState)
    (h : s.close_requested = true) : (runCbOps ops s).close_requested = true := by
  induction ops generalizing s with
  | nil => exact h
  | cons op rest ih => exact ih (runCbOp op s) (runCbOp_close_mono op s h)

lemma processEvent_frame (e : OsEvent) (s : VisState) :
    (processEvent e s).invoked_log = s.invoked_log ∧
      (processEvent e s).animation_callback_func = s.animation_callback_func := by
  cases e <;> simp [processEvent, requestClose, updateRender]

lemma processEvents_invoked_log (es : List OsEvent) (s : VisState) :
    (processEvents es s).invoked_log = s.invoked_log := by
  induction es generalizing s with
  | nil => rfl
  | cons e rest ih => rw [processEvents, ih, (processEvent_frame e s).1]

lemma processEvents_animation_callback (es : List OsEvent) (s : VisState) :
    (processEvents es s).animation_callback_func = s.animation_callback_func := by
  induction es generalizing s with
  | nil => rfl
  | cons e rest ih => rw [processEvents, ih, (processEvent_frame e s).2]

lemma processEvent_close_mono (e : OsEvent) (s : VisState)
    (h : s.close_requested = true) :
    (processEvent e s).close_requested = true := by
  cases e <;> simp [processEvent, requestClose, updateRender, h]

lemma processEvents_close_mono (es : List OsEvent) (s : VisState)
    (h : s.close_requested = true) :
    (processEvents es s).close_requested = true := by
  induction es generalizing s with
  | nil => exact h
  | cons e rest ih => exact ih (processEvent e s) (processEvent_close_mono e s h)

lemma processEvents_close_of_mem (es : List OsEvent) (s : VisState)
    (h : OsEvent.closeEvent ∈ es) :
    (processEvents es s).close_requested = true := by
  induction es generalizing s with
  | nil => cases h
  | cons e rest ih =>
      rcases List.mem_cons.mp h with h1 | h2
      · rw [processEvents, ← h1]
        exact processEvents_close_mono rest (processEvent OsEvent.closeEvent s) rfl
      · exact ih (processEvent e s) h2

lemma callbackStep_invoked_log (table : Nat → Callback) (s : VisState) :
    (callbackStep table s).invoked_log
      = s.invoked_log ++ s.animation_callback_func.toList := by
  cases h : s.animation_callback_func with
  | none => simp [callbackStep, h]
  | some cid =>
      cases hr : (table cid).ret <;>
        simp [callbackStep, h, hr, runCbOps_invoked_log]

lemma callbackStep_close_mono (table : Nat → Callback) (s : VisState)
    (h : s.close_requested = true) :
    (callbackStep table s).close_requested = true := by
  cases hc : s.animation_callback_func with
  | none => simp [callbackStep, hc, h]
  | some cid =>
      have hs1 := runCbOps_close_mono (table cid).ops
        { s with animation_callback_func_in_loop := some cid,
                 invoked_log := s.invoked_log ++ [cid] } h
      simp only [hc] at hs1
      cases hr : (table cid).ret <;>
        simp [callbackStep, hc, hr, hs1]

lemma renderPass_invoked_log (s : VisState) :
    (renderPass s).invoked_log = s.invoked_log := rfl

lemma renderPass_close (s : VisState) :
    (renderPass s).close_requested = s.close_requested := rfl

lemma frameIteration_invoked_log (table : Nat → Callback) (es : List OsEvent)
    (s : VisState) :
    (frameIteration table es s).1.invoked_log
      = s.invoked_log ++ s.animation_callback_func.toList := by
  unfold frameIteration
  cases hd : (callbackStep table (processEvents es s)).is_redraw_required <;>
    simp [hd, renderPass_invoked_log, callbackStep_invoked_log,
      processEvents_invoked_log, processEvents_animation_callback]

lemma frameIteration_dirty_false (table : Nat → Callback) (es : List OsEvent)
    (s : VisState) :
    (frameIteration table es s).1.is_redraw_required = false := by
  unfold frameIteration
  cases hd : (callbackStep table (processEvents es s)).is_redraw_required <;>
    simp [hd, renderPass]

lemma frameIteration_close_mono (table : Nat → Callback) (es : List OsEvent)
    (s : VisState) (h : s.close_requested = true) :
    (frameIteration table es s).1.close_requested = true := by
  unfold frameIteration
  have h1 := processEvents_close_mono es s h
  have h2 := callbackStep_close_mono table (processEvents es s) h1
  cases hd : (callbackStep table (processEvents es s)).is_redraw_required <;>
    simp [hd, renderPass_close, h2]

lemma frameIteration_close_of_mem (table : Nat → Callback) (es : List OsEvent)
    (s : VisState) (h : OsEvent.closeEvent ∈ es) :
    (frameIteration table es s).1.close_requested = true := by
  unfold frameIteration
  have h1 := processEvents_close_of_mem es s h
  have h2 := callbackStep_close_mono table (processEvents es s) h1
  cases hd : (callbackStep table (processEvents es s)).is_redraw_required <;>
    simp [hd, renderPass_close, h2]

/-- Claim C5: dirty-flag discipline — every mutation call that returns
true sets the dirty flag; UpdateRender unconditionally sets it; a
callback returning true sets it; and after a full loop iteration (whose
render pass runs whenever the flag is set) the dirty flag is clear. -/
theorem dirty_flag_discipline :
    (∀ g rb s, (addGeometry g rb s).2 = true →
      (addGeometry g rb s).1.is_redraw_required = true) ∧
    (∀ g rb s, (removeGeometry g rb s).2 = true →
      (removeGeometry g rb s).1.is_redraw_required = true) ∧
    (∀ s : VisState, (clearGeometries s).2 = true ∧
      (clearGeometries s).1.is_redraw_required = true) ∧
    (∀ og s, (updateGeometry og s).2 = true →
      (updateGeometry og s).1.is_redraw_required = true) ∧
    (∀ s : VisState, (updateRender s).is_redraw_required = true) ∧
    (∀ table cid s, s.animation_callback_func = some cid →
      (table cid).ret = true →
      (callbackStep table s).is_redraw_required = true) ∧
    (∀ table es s, (frameIteration table es s).1.is_redraw_required = false) := by
  refine ⟨?_, ?_, ?_, ?_, ?_, ?_, ?_⟩
  · intro g rb s hsucc
    cases hs : rendererSupported g.kind
    · simp [addGeometry, hs] at hsucc
    · cases rb <;> simp [addGeometry, resetBoundingBox, hs]
  · intro g rb s hsucc
    by_cases hm : g ∈ s.geometry_ptrs
    · cases rb <;> simp [removeGeometry, resetBoundingBox, hm]
    · simp [removeGeometry, hm] at hsucc
  · intro s
    simp [clearGeometries]
  · intro og s hsucc
    cases og with
    | none => simp [updateGeometry]
    | some g0 =>
        by_cases hm : g0 ∈ s.geometry_ptrs
        · simp [updateGeometry, hm]
        · simp [updateGeometry, hm] at hsucc
  · intro s
    rfl
  · intro table cid s h1 h2
    simp [callbackStep, h1, h2]
  · intro table es s
    exact frameIteration_dirty_false table es s

/-- Witness for C5: concrete instances of each clause that carries a
hypothesis — a successful add, a successful remove, a successful
update, and a callback returning true — all set the dirty flag. -/
theorem dirty_flag_discipline_witness :
    (addGeometry (Geometry.mk 1 GeometryKind.pointCloud) true initVisState).2
        = true ∧
    (addGeometry (Geometry.mk 1 GeometryKind.pointCloud) true
        initVisState).1.is_redraw_required = true ∧
    (removeGeometry (Geometry.mk 1 GeometryKind.pointCloud) true
        (addGeometry (Geometry.mk 1 GeometryKind.pointCloud) true
          initVisState).1).2 = true ∧
    (removeGeometry (Geometry.mk 1 GeometryKind.pointCloud) true
        (addGeometry (Geometry.mk 1 GeometryKind.pointCloud) true
          initVisState).1).1.is_redraw_required = true ∧
    (updateGeometry none initVisState).2 = true ∧
    (updateGeometry none initVisState).1.is_redraw_required = true ∧
    (registerAnimationCallback (some 0)
        initVisState).animation_callback_func = some 0 ∧
    ((fun _ : Nat => Callback.mk [] true) 0).ret = true ∧
    (callbackStep (fun _ : Nat => Callback.mk [] true)
        (registerAnimationCallback (some 0)
          initVisState)).is_redraw_required = true :=
  ⟨by decide,
   dirty_flag_discipline.1 (Geometry.mk 1 GeometryKind.pointCloud) true
     initVisState (by decide),
   by decide,
   dirty_flag_discipline.2.1 (Geometry.mk 1 GeometryKind.pointCloud) true
     (addGeometry (Geometry.mk 1 GeometryKind.pointCloud) true initVisState).1
     (by decide),
   by decide,
   dirty_flag_discipline.2.2.2.1 none initVisState (by decide),
   by decide,
   by decide,
   dirty_flag_discipline.2.2.2.2.2.1 (fun _ : Nat => Callback.mk [] true) 0
     (registerAnimationCallback (some 0) initVisState) (by decide)
     (by decide)⟩

/-- Claim C6: the callback a loop iteration invokes is the snapshot
captured at the top of that iteration — replacing the callback during
the iteration (including from inside the executing callback itself)
does not change which callback the in-flight iteration runs, and the
replacement is what the next iteration invokes. -/
theorem animationCallback_snapshot_per_iteration (table : Nat → Callback)
    (es es2 : List OsEvent) (s : VisState) (c : Nat)
    (h : s.animation_callback_func = some c) :
    (frameIteration table es s).1.invoked_log = s.invoked_log ++ [c] ∧
    (frameIteration table es2 (frameIteration table es s).1).1.invoked_log
      = s.invoked_log ++ [c]
        ++ ((frameIteration table es s).1.animation_callback_func).toList := by
  have h1 : (frameIteration table es s).1.invoked_log = s.invoked_log ++ [c] := by
    rw [frameIteration_invoked_log, h]
    rfl
  refine ⟨h1, ?_⟩
  rw [frameIteration_invoked_log, h1]

/-- Witness for C6: a callback that re-registers callback 1 from
inside its own execution — the iteration that snapshotted callback 0
still invokes 0, and the next iteration invokes 1. -/
theorem animationCallback_snapshot_witness :
    (registerAnimationCallback (some 0)
        initVisState).animation_callback_func = some 0 ∧
    (frameIteration
        (fun cid => if cid = 0 then Callback.mk [CbOp.registerCb (some 1)] false
          else Callback.mk [] false) []
        (registerAnimationCallback (some 0) initVisState)).1.invoked_log
      = [0] ∧
    (frameIteration
        (fun cid => if cid = 0 then Callback.mk [CbOp.registerCb (some 1)] false
          else Callback.mk [] false) []
        (frameIteration
          (fun cid => if cid = 0 then Callback.mk [CbOp.registerCb (some 1)] false
            else Callback.mk [] false) []
          (registerAnimationCallback (some 0) initVisState)).1).1.invoked_log
      = [0, 1] := by
  refine ⟨by decide, ?_, ?_⟩
  · have h := (animationCallback_snapshot_per_iteration
      (fun cid => if cid = 0 then Callback.mk [CbOp.registerCb (some 1)] false
        else Callback.mk [] false) [] []
      (registerAnimationCallback (some 0) initVisState) 0 (by decide)).1
    simpa using h
  · have h := (animationCallback_snapshot_per_iteration
      (fun cid => if cid = 0 then Callback.mk [CbOp.registerCb (some 1)] false
        else Callback.mk [] false) [] []
      (registerAnimationCallback (some 0) initVisState) 0 (by decide)).2
    have hacf : (frameIteration
        (fun cid => if cid = 0 then Callback.mk [CbOp.registerCb (some 1)] false
          else Callback.mk [] false) []
        (registerAnimationCallback (some 0)
          initVisState)).1.animation_callback_func = some 1 := by decide
    rw [hacf] at h
    simpa using h

/-- Claim C7: PollEvents and WaitEvents each perform exactly one
iteration of the frame loop and return false once a close has been
requested or processed, true otherwise; PollEvents is total on any
event batch (returns immediately), while WaitEvents returns only once
at least one OS event has arrived (blocking forever is `none`). -/
theorem pollEvents_waitEvents_one_iteration (table : Nat → Callback)
    (es : List OsEvent) (s : VisState) :
    pollEvents table es s = frameIteration table es s ∧
    (pollEvents table es s).2
      = !(pollEvents table es s).1.close_requested ∧
    (s.close_requested = true → (pollEvents table es s).2 = false) ∧
    (OsEvent.closeEvent ∈ es → (pollEvents table es s).2 = false) ∧
    (waitEvents table es s = none ↔ es = []) ∧
    (es ≠ [] → waitEvents table es s = some (frameIteration table es s)) := by
  refine ⟨rfl, rfl, ?_, ?_, ?_, ?_⟩
  · intro h
    have hc := frameIteration_close_mono table es s h
    show (!(frameIteration table es s).1.close_requested) = false
    rw [hc]
    rfl
  · intro h
    have hc := frameIteration_close_of_mem table es s h
    show (!(frameIteration table es s).1.close_requested) = false
    rw [hc]
    rfl
  · cases es <;> simp [waitEvents]
  · intro h
    cases es with
    | nil => exact absurd rfl h
    | cons e rest => rfl

/-- Witness for C7: after Close has been requested PollEvents returns
false; a delivered close event makes PollEvents return false; and
WaitEvents on a nonempty event batch returns the one-iteration
result. -/
theorem pollEvents_waitEvents_witness :
    (requestClose initVisState).close_requested = true ∧
    (pollEvents (fun _ => Callback.mk [] false) []
        (requestClose initVisState)).2 = false ∧
    OsEvent.closeEvent ∈ [OsEvent.closeEvent] ∧
    (pollEvents (fun _ => Callback.mk [] false) [OsEvent.closeEvent]
        initVisState).2 = false ∧
    ([OsEvent.closeEvent] ≠ ([] : List OsEvent)) ∧
    waitEvents (fun _ => Callback.mk [] false) [OsEvent.closeEvent] initVisState
      = some (frameIteration (fun _ => Callback.mk [] false)
          [OsEvent.closeEvent] initVisState) :=
  ⟨by decide,
   (pollEvents_waitEvents_one_iteration (fun _ => Callback.mk [] false) []
     (requestClose initVisState)).2.2.1 (by decide),
   by decide,
   (pollEvents_waitEvents_one_iteration (fun _ => Callback.mk [] false)
     [OsEvent.closeEvent] initVisState).2.2.2.1 (by decide),
   by decide,
   (pollEvents_waitEvents_one_iteration (fun _ => Callback.mk [] false)
     [OsEvent.closeEvent] initVisState).2.2.2.2.2 (by decide)⟩

/-- Claim C8: the primary renderer registry is an unordered set — the
registry contents do not depend on the order in which two geometries
are added — while utility renderers form an ordered sequence: each new
utility is appended, and a render pass draws the utility sequence in
exactly that insertion order, separately from the unordered primary
renderers. -/
theorem renderers_unordered_utilities_insertion_order (g1 g2 : Geometry)
    (rb : Bool) (u : Geometry) (s : VisState) :
    (addGeometry g2 rb (addGeometry g1 rb s).1).1.geometry_ptrs
      = (addGeometry g1 rb (addGeometry g2 rb s).1).1.geometry_ptrs ∧
    (addGeometry g2 rb (addGeometry g1 rb s).1).1.geometry_renderer_ptrs
      = (addGeometry g1 rb (addGeometry g2 rb s).1).1.geometry_renderer_ptrs ∧
    (addUtility u s).utility_renderer_ptrs
      = s.utility_renderer_ptrs ++ [rendererFor u] ∧
    (renderPass s).utility_draw_log
      = s.utility_draw_log ++ [s.utility_renderer_ptrs] ∧
    (renderPass s).primary_draw_log
      = s.primary_draw_log ++ [s.geometry_renderer_ptrs] := by
  refine ⟨?_, ?_, rfl, rfl, rfl⟩ <;>
    cases h1 : rendererSupported g1.kind <;>
      cases h2 : rendererSupported g2.kind <;>
        cases rb <;>
          simp [addGeometry, resetBoundingBox, h1, h2, Finset.Insert.comm]

/-- Claim C9: ClearGeometries empties the geometry and renderer sets,
always returns true, sets the dirty flag, and never touches the
coordinate-frame overlay members or the utility renderers, which live
outside the regular geometry registry (registering the overlay leaves
the geometry registry unchanged). -/
theorem clearGeometries_total_and_spares_overlay (s : VisState) :
    (clearGeometries s).2 = true ∧
    (clearGeometries s).1.geometry_ptrs = ∅ ∧
    (clearGeometries s).1.geometry_renderer_ptrs = ∅ ∧
    (clearGeometries s).1.is_redraw_required = true ∧
    (clearGeometries s).1.coordinate_frame_mesh = s.coordinate_frame_mesh ∧
    (clearGeometries s).1.coordinate_frame_renderer
      = s.coordinate_frame_renderer ∧
    (clearGeometries s).1.utility_renderer_ptrs = s.utility_renderer_ptrs ∧
    (buildUtilities s).geometry_ptrs = s.geometry_ptrs ∧
    (buildUtilities s).geometry_renderer_ptrs = s.geometry_renderer_ptrs := by
  refine ⟨rfl, rfl, rfl, rfl, rfl, rfl, rfl, rfl, rfl⟩

/-- Claim C10: a freshly created visualizer has its dirty flag
initialized to true (header line 155), so its very first loop
iteration performs a render pass even with no events, no registered
callback and no prior mutation. -/
theorem fresh_visualizer_renders_first_iteration (table : Nat → Callback) :
    initVisState.is_redraw_required = true ∧
    (frameIteration table [] initVisState).1.render_count = 1 :=
  ⟨rfl, rfl⟩

end CupochVis
